import Mathlib

/-!
Shallow embedding of the ts-result library (shrimpcoder/ts-result).

The library is a two-variant discriminated union: `Ok` wraps a success value
(src/lib/Ok.ts) and `Err` wraps an error value (src/lib/Err.ts); both
implement the `Result` contract (src/lib/Result.ts), whose namespace also
provides the adapter functions `run` and `runAsync`.

Modelling choices:
- The two classes become the two constructors of one inductive type; each
  method becomes a Lean function matching on the variant, with each arm
  translated from the corresponding class body.
- TypeScript union error types `E | E2` are type-level only (erased at
  runtime); the embedding uses a single error type `E`, which changes no
  runtime value.
- A thrown JS `Error` object is modelled by the `Error` structure below
  (its message); methods that can throw return `Except Error _`.
- A throwing computation passed to `run`/`runAsync` is modelled as
  `Unit → Except ε T`: invoking it yields either a normal return `.ok v`
  or a thrown condition `.error e`. The thrown type `ε` stays polymorphic
  because the source's `error as Error` is a compile-time cast with no
  runtime conversion. For `runAsync` the `Except` outcome is the settled
  state (resolved or rejected) of the promise returned by `fn`.
- "The callback is never invoked" is made observable with instrumented
  variants (`…Count`): the callback is threaded with an invocation
  counter, incremented at each call, exactly mirroring where the source
  calls the callback.
-/

namespace TsResult

/-- The two-variant result union: `Ok` (src/lib/Ok.ts) wraps a value,
`Err` (src/lib/Err.ts) wraps an error. -/
inductive Result (T E : Type) where
  | Ok (value : T)
  | Err (error : E)
deriving DecidableEq, Repr

/-- A thrown JS `Error` object, identified by its message (the only field
the library ever sets: `new Error(message)`). -/
structure Error where
  message : String
deriving DecidableEq, Repr

/-- `Ok.and` returns the passed Result `res`; `Err.and` ignores it and
returns `this`. -/
def Result.and {T E U : Type} : Result T E → Result U E → Result U E
  | .Ok _, res => res
  | .Err error, _ => .Err error

/-- `Ok.andThen` applies `fn` to the wrapped value and returns its Result;
`Err.andThen` ignores `fn` and returns `this`. -/
def Result.andThen {T E U : Type} : Result T E → (T → Result U E) → Result U E
  | .Ok value, fn => fn value
  | .Err error, _ => .Err error

/-- `Ok.isOk` returns true; `Err.isOk` returns false. -/
def Result.isOk {T E : Type} : Result T E → Bool
  | .Ok _ => true
  | .Err _ => false

/-- `Ok.isError` returns false; `Err.isError` returns true. -/
def Result.isError {T E : Type} : Result T E → Bool
  | .Ok _ => false
  | .Err _ => true

/-- `Ok.map` wraps `fn value` in a new Ok; `Err.map` ignores `fn` and
returns `this`. -/
def Result.map {T E U : Type} : Result T E → (T → U) → Result U E
  | .Ok value, fn => .Ok (fn value)
  | .Err error, _ => .Err error

/-- `Ok.mapError` ignores `fn` and returns `this`; `Err.mapError` wraps
`fn error` in a new Err. -/
def Result.mapError {T E E2 : Type} : Result T E → (E → E2) → Result T E2
  | .Ok value, _ => .Ok value
  | .Err error, fn => .Err (fn error)

/-- `Ok.unwrap` returns the wrapped value; `Err.unwrap` throws
`new Error('Called unwrap on an Err value')`. -/
def Result.unwrap {T E : Type} : Result T E → Except Error T
  | .Ok value => .ok value
  | .Err _ => .error (Error.mk "Called unwrap on an Err value")

/-- `Err.unwrapError` returns the wrapped error; `Ok.unwrapError` throws
`new Error('Called unwrapError on an Ok value')`. -/
def Result.unwrapError {T E : Type} : Result T E → Except Error E
  | .Ok _ => .error (Error.mk "Called unwrapError on an Ok value")
  | .Err error => .ok error

/-- `Ok.unwrapOr` ignores the default and returns the wrapped value;
`Err.unwrapOr` returns the default. -/
def Result.unwrapOr {T E : Type} : Result T E → T → T
  | .Ok value, _ => value
  | .Err _, defaultValue => defaultValue

/-- `Result.run` (src/lib/Result.ts): invoke `fn` once inside try/catch;
a normal return is wrapped in Ok, a thrown condition is caught and wrapped
in Err. The source's `error as Error` cast has no runtime effect, so the
caught value keeps its own type `ε`. -/
def Result.run {T ε : Type} (fn : Unit → Except ε T) : Result T ε :=
  match fn () with
  | .ok value => .Ok value
  | .error error => .Err error

/-- `Result.runAsync` (src/lib/Result.ts): invoke `fn` once; its promise
resolving to `value` yields `Ok value` via `.then`, rejecting with `error`
yields `Err error` via `.catch` (with the same type-level-only cast). -/
def Result.runAsync {T ε : Type} (fn : Unit → Except ε T) : Result T ε :=
  match fn () with
  | .ok value => .Ok value
  | .error error => .Err error

/-- Instrument a callback with an invocation counter: each call increments
the count by one. -/
def counted {α β : Type} (f : α → β) : α → Nat → β × Nat :=
  fun a n => (f a, n + 1)

/-- Instrument a zero-argument computation with an invocation counter. -/
def countedThunk {T ε : Type} (fn : Unit → Except ε T) : Unit → Nat → Except ε T × Nat :=
  fun _ n => (fn (), n + 1)

/-- `andThen` with the callback counter threaded through: the Ok arm calls
`fn` (as the source does), the Err arm never touches it. -/
def Result.andThenCount {T E U : Type} (r : Result T E)
    (fn : T → Nat → Result U E × Nat) (calls : Nat) : Result U E × Nat :=
  match r with
  | .Ok value => fn value calls
  | .Err error => (.Err error, calls)

/-- `map` with the callback counter threaded through. -/
def Result.mapCount {T E U : Type} (r : Result T E)
    (fn : T → Nat → U × Nat) (calls : Nat) : Result U E × Nat :=
  match r with
  | .Ok value =>
    match fn value calls with
    | (u, n) => (.Ok u, n)
  | .Err error => (.Err error, calls)

/-- `mapError` with the callback counter threaded through. -/
def Result.mapErrorCount {T E E2 : Type} (r : Result T E)
    (fn : E → Nat → E2 × Nat) (calls : Nat) : Result T E2 × Nat :=
  match r with
  | .Ok value => (.Ok value, calls)
  | .Err error =>
    match fn error calls with
    | (e2, n) => (.Err e2, n)

/-- `run` with the computation counter threaded through: `fn` is invoked
exactly at the one place the source invokes it. -/
def Result.runCount {T ε : Type} (fn : Unit → Nat → Except ε T × Nat)
    (calls : Nat) : Result T ε × Nat :=
  match fn () calls with
  | (.ok value, n) => (.Ok value, n)
  | (.error error, n) => (.Err error, n)

/-- `runAsync` with the computation counter threaded through. -/
def Result.runAsyncCount {T ε : Type} (fn : Unit → Nat → Except ε T × Nat)
    (calls : Nat) : Result T ε × Nat :=
  match fn () calls with
  | (.ok value, n) => (.Ok value, n)
  | (.error error, n) => (.Err error, n)

/-- C1: for every value v and callback f, `Ok(v).andThen(f)` equals `f v`;
for every error e, `Err(e).andThen(f)` is the same Err wrapping e unchanged,
and f is never invoked (its invocation counter stays at 0). -/
theorem andThen_spec {T E U : Type} (v : T) (e : E) (f : T → Result U E) :
    (Result.Ok v : Result T E).andThen f = f v ∧
    (Result.Err e : Result T E).andThen f = Result.Err e ∧
    (Result.Err e : Result T E).andThenCount (counted f) 0 = (Result.Err e, 0) :=
  ⟨rfl, rfl, rfl⟩

/-- C2 counterexample: `Err.unwrap` throws the fixed message
"Called unwrap on an Err value", which is not the claimed
"called unwrap on a Failure value"; symmetrically `Ok.unwrapError` throws
"Called unwrapError on an Ok value", not the claimed
"called unwrapError on a Success value". -/
theorem unwrap_message_counterexample :
    (Result.Err "boom" : Result Nat String).unwrap =
      Except.error (Error.mk "Called unwrap on an Err value") ∧
    "Called unwrap on an Err value" ≠ "called unwrap on a Failure value" ∧
    (Result.Ok 42 : Result Nat String).unwrapError =
      Except.error (Error.mk "Called unwrapError on an Ok value") ∧
    "Called unwrapError on an Ok value" ≠ "called unwrapError on a Success value" :=
  ⟨rfl, by decide, rfl, by decide⟩

/-- C2 (amended): `unwrap` on an Err fails unconditionally with the fixed
misuse message "Called unwrap on an Err value", and `unwrapError` on an Ok
fails unconditionally with the fixed misuse message
"Called unwrapError on an Ok value", both regardless of the wrapped value;
these are the only library-synthesized failures: `Ok.unwrap` and
`Err.unwrapError` (the only other throwing-typed operations) never fail. -/
theorem unwrap_misuse_spec {T E : Type} (v : T) (e : E) :
    (Result.Err e : Result T E).unwrap =
      Except.error (Error.mk "Called unwrap on an Err value") ∧
    (Result.Ok v : Result T E).unwrapError =
      Except.error (Error.mk "Called unwrapError on an Ok value") ∧
    (Result.Ok v : Result T E).unwrap = Except.ok v ∧
    (Result.Err e : Result T E).unwrapError = Except.ok e :=
  ⟨rfl, rfl, rfl, rfl⟩

/-- C3: `run fn` invokes fn exactly once (counter ends at 1); if fn returns
v normally the result is `Ok v`, if fn throws e the result is `Err e`
(caught, never re-raised: `run` is total into `Result`); `runAsync`
behaves the same on the resolved/rejected outcome of its computation. -/
theorem run_runAsync_spec {T ε : Type} (fn gn : Unit → Except ε T) (v : T) (e : ε)
    (hok : fn () = Except.ok v) (herr : gn () = Except.error e) :
    Result.run fn = Result.Ok v ∧
    Result.run gn = Result.Err e ∧
    (Result.runCount (countedThunk fn) 0).2 = 1 ∧
    Result.runAsync fn = Result.Ok v ∧
    Result.runAsync gn = Result.Err e ∧
    (Result.runAsyncCount (countedThunk gn) 0).2 = 1 := by
  refine ⟨?_, ?_, ?_, ?_, ?_, ?_⟩ <;>
    simp [Result.run, Result.runAsync, Result.runCount, Result.runAsyncCount,
      countedThunk, hok, herr]

/-- C3 witness: `run`/`runAsync` at a computation returning 42 and one
throwing "Failure". -/
theorem run_runAsync_spec_witness :
    Result.run (fun _ => (Except.ok 42 : Except String Nat)) = Result.Ok 42 ∧
    Result.run (fun _ => (Except.error "Failure" : Except String Nat)) =
      Result.Err "Failure" ∧
    (Result.runCount (countedThunk fun _ => (Except.ok 42 : Except String Nat)) 0).2 = 1 ∧
    Result.runAsync (fun _ => (Except.ok 42 : Except String Nat)) = Result.Ok 42 ∧
    Result.runAsync (fun _ => (Except.error "Failure" : Except String Nat)) =
      Result.Err "Failure" ∧
    (Result.runAsyncCount
      (countedThunk fun _ => (Except.error "Failure" : Except String Nat)) 0).2 = 1 :=
  run_runAsync_spec (fun _ => Except.ok 42) (fun _ => Except.error "Failure")
    42 "Failure" rfl rfl

/-- C4: for every value v and callback f, `Ok(v).map(f)` is a new Ok
wrapping `f v`, so its `unwrap` yields `f v`; for every error e,
`Err(e).map(f)` is the same Err wrapping e unchanged and f is never
invoked (counter stays at 0). -/
theorem map_spec {T E U : Type} (v : T) (e : E) (f : T → U) :
    (Result.Ok v : Result T E).map f = Result.Ok (f v) ∧
    ((Result.Ok v : Result T E).map f).unwrap = Except.ok (f v) ∧
    (Result.Err e : Result T E).map f = Result.Err e ∧
    (Result.Err e : Result T E).mapCount (counted f) 0 = (Result.Err e, 0) :=
  ⟨rfl, rfl, rfl, rfl⟩

/-- C5: for every error e and callback f, `Err(e).mapError(f)` is a new Err
wrapping `f e`, so its `unwrapError` yields `f e`; for every value v,
`Ok(v).mapError(f)` is the same Ok wrapping v unchanged and f is never
invoked (counter stays at 0). -/
theorem mapError_spec {T E E2 : Type} (v : T) (e : E) (f : E → E2) :
    (Result.Err e : Result T E).mapError f = Result.Err (f e) ∧
    ((Result.Err e : Result T E).mapError f).unwrapError = Except.ok (f e) ∧
    (Result.Ok v : Result T E).mapError f = Result.Ok v ∧
    (Result.Ok v : Result T E).mapErrorCount (counted f) 0 = (Result.Ok v, 0) :=
  ⟨rfl, rfl, rfl, rfl⟩

/-- C6: for every value v and Result r, `Ok(v).and(r)` is r exactly; for
every error e, `Err(e).and(r)` is the same Err wrapping e unchanged,
regardless of r. -/
theorem and_spec {T E U : Type} (v : T) (e : E) (r : Result U E) :
    (Result.Ok v : Result T E).and r = r ∧
    (Result.Err e : Result T E).and r = Result.Err e :=
  ⟨rfl, rfl⟩

/-- C7: for every value v, `Ok(v).unwrap()` returns v without failing,
`Ok(v).unwrapOr(d)` returns v for every default d, `Ok(v).isOk()` is true
and `Ok(v).isError()` is false. -/
theorem ok_accessors_spec {T E : Type} (v d : T) :
    (Result.Ok v : Result T E).unwrap = Except.ok v ∧
    (Result.Ok v : Result T E).unwrapOr d = v ∧
    (Result.Ok v : Result T E).isOk = true ∧
    (Result.Ok v : Result T E).isError = false :=
  ⟨rfl, rfl, rfl, rfl⟩

/-- C8: for every error e, `Err(e).unwrapError()` returns e without
failing, `Err(e).unwrapOr(d)` returns d for every default d,
`Err(e).isError()` is true and `Err(e).isOk()` is false. -/
theorem err_accessors_spec {T E : Type} (e : E) (d : T) :
    (Result.Err e : Result T E).unwrapError = Except.ok e ∧
    (Result.Err e : Result T E).unwrapOr d = d ∧
    (Result.Err e : Result T E).isError = true ∧
    (Result.Err e : Result T E).isOk = false :=
  ⟨rfl, rfl, rfl, rfl⟩

/-- C9: every Result is exactly one of the two variants: `isOk` is the
negation of `isError`, `isOk` holds exactly on Ok values, `isError`
exactly on Err values, and the two are never both true. The remaining
parts of the claim hold because the embedding is a pure value type:
repeated calls of `isOk`/`isError` on one value are the same application
of a function, and no operation mutates its receiver. -/
theorem variant_invariant_spec {T E : Type} (r : Result T E) :
    r.isOk = !r.isError ∧
    (r.isOk = true ↔ ∃ v, r = Result.Ok v) ∧
    (r.isError = true ↔ ∃ e, r = Result.Err e) ∧
    ¬(r.isOk = true ∧ r.isError = true) := by
  cases r <;> simp [Result.isOk, Result.isError]

/-- C10: when the computation throws a value of any type ε — a plain
string, a number — `run` returns an Err wrapping that exact raw value
unchanged: the `as Error` coercion in the source is type-level only and
no runtime conversion into an Error object occurs. -/
theorem run_raw_throw_spec {T ε : Type} (fn : Unit → Except ε T) (e : ε)
    (h : fn () = Except.error e) :
    Result.run fn = Result.Err e := by
  simp [Result.run, h]

/-- C10 witness: a computation throwing the plain string "boom" (not an
Error structure) yields `Err "boom"` with the string unchanged. -/
theorem run_raw_throw_spec_witness :
    Result.run (fun _ => (Except.error "boom" : Except String Nat)) =
      Result.Err "boom" :=
  run_raw_throw_spec (fun _ => Except.error "boom") "boom" rfl

end TsResult
